import Mathlib

/-!
Shallow embedding of the master DAG script
(`tests_integration/astro_deploy/master_dag.py`): the run-report
aggregator `get_report`, the trigger-set builder
`prepare_dag_dependency`, and the DAG-level wiring that feeds the
builder output into the aggregator.

Python mappings used throughout:
  - a Python dict (insertion ordered) is a `List (String × String)`;
    `dict.get k` is lookup of the first pair with key `k`;
  - `os.getenv k default` is lookup in an environment association list
    with a default; `os.environ[k]` raises `KeyError` when `k` is
    absent, modelled by an `Except`-style error outcome;
  - an f-string interpolation of a value that may be Python `None`
    renders it as the string "None" (`pyStr`);
  - exceptions escaping `get_report` are the `result` field of
    `ReportOutcome`; the Slack dispatch is modelled by a boolean input
    saying whether `SlackWebhookOperator.execute` raises, and the
    `dispatched` field records the messages actually sent;
  - `prepare_dag_dependency` returns `none` when `list(d.keys())[0]`
    raises `IndexError` on an empty mapping.
-/

namespace MasterDag

/-- One row of `TaskInstance` as read by the report loop: a task
identifier and its state string. -/
structure TaskInstance where
  task_id : String
  state : String
deriving DecidableEq

/-- One `DagRun` row: dag identifier, run identifier, terminal state
(`dr.get_state()`), and its child task instances
(`dr.get_task_instances()`). -/
structure DagRun where
  dag_id : String
  run_id : String
  state : String
  task_instances : List TaskInstance
deriving DecidableEq

/-- The process environment, an association list of variable names to
values (first binding wins, as in a Python mapping). -/
abbrev Env := List (String × String)

/-- Lookup of an environment variable: `some v` when set, `none` when
unset (where `os.environ[k]` would raise `KeyError`). -/
def envLookup (env : Env) (key : String) : Option String :=
  (env.find? (fun p => p.1 = key)).map (fun p => p.2)

/-- `os.getenv key default`: the value when set, the default otherwise. -/
def getenv (env : Env) (key : String) (default : String) : String :=
  (envLookup env key).getD default

/-- Python f-string rendering of a value that may be `None`:
`None` prints as "None". -/
def pyStr : Option String → String
  | none => "None"
  | some s => s

/-- `dict.get k`: the value stored under the first pair whose key is
`k`, or `none`. -/
def dictGet (d : List (String × String)) (k : String) : Option String :=
  (d.find? (fun p => p.1 = k)).map (fun p => p.2)

/-- Module-level configuration: `SLACK_CHANNEL`. -/
def SLACK_CHANNEL (env : Env) : String := getenv env "SLACK_CHANNEL" "#provider-alert"

/-- Module-level configuration: `SLACK_WEBHOOK_CONN`. -/
def SLACK_WEBHOOK_CONN (env : Env) : String := getenv env "SLACK_WEBHOOK_CONN" "http_slack"

/-- Module-level configuration: `SLACK_USERNAME`. -/
def SLACK_USERNAME (env : Env) : String := getenv env "SLACK_USERNAME" "airflow_app"

/-- The four values pulled from upstream tasks via
`context["ti"].xcom_pull(task_ids=...)`; each may be absent (`None`). -/
structure Xcoms where
  airflow_version : Option String
  airflow_executor : Option String
  astro_sdk_version : Option String
  astro_cloud_provider : Option String
deriving DecidableEq

/-- The `report_details` list comprehension (lines 51 to 61 of the
source): one Slack-formatted line per (header, value) pair, in the
declared order. -/
def report_details (env : Env) (xc : Xcoms) : List String :=
  [ "*Runtime version:* `" ++ getenv env "ASTRONOMER_RUNTIME_VERSION" "N/A" ++ "`\n",
    "*Python version:* `" ++ getenv env "PYTHON_VERSION" "N/A" ++ "`\n",
    "*Airflow version:* `" ++ pyStr xc.airflow_version ++ "`\n",
    "*Executor:* `" ++ pyStr xc.airflow_executor ++ "`\n",
    "*Astro-SDK version:* `" ++ pyStr xc.astro_sdk_version ++ "`\n",
    "*Cloud provider:* `" ++ pyStr xc.astro_cloud_provider ++ "`\n" ]

/-- The body of the inner `for ti in dr.get_task_instances()` loop:
`none` when the task produces no failure line ("end" / "get_report"
are excluded, "success" is skipped), otherwise the marker-prefixed
line appended to `failed_tasks`. The marker is `:red_circle: ` for
"failed", `:large_orange_circle: ` for "upstream_failed", and the
initial `:black_circle: ` for any other state. -/
def taskLine (ti : TaskInstance) : Option String :=
  if ¬(ti.task_id = "end" ∨ ti.task_id = "get_report") then
    if ti.state = "success" then none
    else
      let task_code : String :=
        if ti.state = "failed" then ":red_circle: "
        else if ti.state = "upstream_failed" then ":large_orange_circle: "
        else ":black_circle: "
      some (task_code ++ " " ++ ti.task_id ++ " : " ++ ti.state ++ " \n")
  else none

/-- The body of the outer `for dr in last_dags_runs` loop, acting on
the accumulator `(dag_count, failed_dag_count, message_list)`:
`dag_count` always increments; when the run has failing task lines,
its status header and those lines extend `message_list` and
`failed_dag_count` increments. -/
def reportStep (acc : Nat × Nat × List String) (dr : DagRun) : Nat × Nat × List String :=
  let dr_status := " *" ++ dr.dag_id ++ " : " ++ dr.state ++ "* \n"
  let dag_count := acc.1 + 1
  let failed_tasks := dr.task_instances.filterMap taskLine
  if failed_tasks.isEmpty then (dag_count, acc.2.1, acc.2.2)
  else (dag_count, acc.2.1 + 1, acc.2.2 ++ [dr_status] ++ failed_tasks)

/-- The whole classification loop over the loaded runs, starting from
`dag_count, failed_dag_count = 0, 0` and an empty `message_list`. -/
def reportLoop (runs : List DagRun) : Nat × Nat × List String :=
  runs.foldl reportStep (0, 0, [])

/-- The `session.query(DagRun).filter(DagRun.run_id.in_(dag_run_ids))`
load: the rows of the database whose `run_id` is among the requested
identifiers. -/
def loadRuns (dag_run_ids : List String) (db : List DagRun) : List DagRun :=
  db.filter (fun dr => dag_run_ids.contains dr.run_id)

/-- The ways `get_report` can raise: `KeyError` from
`os.environ[key]`, or the re-raised Slack dispatch exception. -/
inductive ReportError where
  | keyError (key : String)
  | slackError
deriving DecidableEq

/-- One message handed to `SlackWebhookOperator`. -/
structure SlackMessage where
  slack_webhook_conn_id : String
  message : String
  channel : String
  username : String
deriving DecidableEq

/-- Observable outcome of one `get_report` call: the log lines
emitted, the normal-or-raised result, and the Slack messages that
were actually delivered. -/
structure ReportOutcome where
  logs : List String
  result : Except ReportError Unit
  dispatched : List SlackMessage

/-- The `get_report` task callable. Inputs: the requested run ids,
the `DagRun` table, the process environment, the xcom-pulled values,
the master run of its own task instances (`context["dag_run"]`), and
whether the Slack dispatch raises. It mirrors the source line by
line: load the runs, build `report_details`, read the webserver base
URL (raising `KeyError` when unset), run the classification loop,
assemble `output_list`, log it, and dispatch it to Slack (logging and
re-raising on dispatch failure). -/
def get_report (dag_run_ids : List String) (db : List DagRun) (env : Env)
    (xc : Xcoms) (master_tis : List TaskInstance) (slack_fails : Bool) : ReportOutcome :=
  let last_dags_runs := loadRuns dag_run_ids db
  let details := ["Results generated for:\n\n"] ++ report_details env xc ++ ["\n"]
  match envLookup env "AIRFLOW__WEBSERVER__BASE_URL" with
  | none => { logs := [], result := .error (.keyError "AIRFLOW__WEBSERVER__BASE_URL"), dispatched := [] }
  | some webserver_base_url =>
    let master_dag_deployment_link :=
      webserver_base_url ++ "/dags/example_master_dag/grid?search=example_master_dag"
    let deployment_message :=
      "\n <" ++ master_dag_deployment_link ++ "|Link> to the master DAG deployment of the above run \n"
    let counts := reportLoop last_dags_runs
    let dag_count := counts.1
    let failed_dag_count := counts.2.1
    let message_list := counts.2.2
    let output_list : List String :=
      [ "*Total DAGS*: " ++ toString dag_count ++ " \n",
        "*Success DAGS*: " ++ toString (dag_count - failed_dag_count) ++ " :green_apple: \n",
        "*Failed DAGS*: " ++ toString failed_dag_count ++ " :apple: \n \n" ]
    let output_list := details ++ output_list
    let output_list :=
      if failed_dag_count > 0 then output_list ++ ["*Failure Details:* \n"] ++ message_list
      else output_list
    let task_failure_message_list : List String :=
      (master_tis.filter (fun ti => ti.state = "failed")).map
        (fun ti => ":red_circle: " ++ ti.task_id ++ " \n")
    let output_list :=
      if task_failure_message_list.isEmpty then output_list
      else output_list ++ ["\nSome of Master DAG tasks failed, please check with deployment link below \n"]
        ++ task_failure_message_list
    let output_list := output_list ++ [deployment_message]
    let full := String.join output_list
    if slack_fails then
      { logs := [full, "Error occur while sending slack alert."],
        result := .error .slackError, dispatched := [] }
    else
      { logs := [full], result := .ok (),
        dispatched := [{ slack_webhook_conn_id := SLACK_WEBHOOK_CONN env, message := full,
                         channel := SLACK_CHANNEL env, username := SLACK_USERNAME env }] }

/-- The trigger operator built for each spec by
`prepare_dag_dependency`; `trigger_dag_id` is the raw value of
`dict.get`, which is `None` only on an unreachable path. -/
structure TriggerDagRunOperator where
  task_id : String
  trigger_dag_id : Option String
  trigger_run_id : String
  wait_for_completion : Bool
  reset_dag_run : Bool
  execution_date : String
  allowed_states : List String
deriving DecidableEq

/-- `prepare_dag_dependency(task_info, execution_time)`: one
`TriggerDagRunOperator` and one run id per mapping in `task_info`,
appended in input order. The task id is `list(d.keys())[0]`, the run
id is the f-string of task id, `d.get(task_id)` and the execution
time. `none` models the `IndexError` raised on an empty mapping. -/
def prepare_dag_dependency (task_info : List (List (String × String)))
    (execution_time : String) : Option (List TriggerDagRunOperator × List String) :=
  match task_info with
  | [] => some ([], [])
  | d :: rest =>
    match d.map Prod.fst with
    | [] => none
    | _task_id :: _ =>
      let _run_id := _task_id ++ "_" ++ pyStr (dictGet d _task_id) ++ "_" ++ execution_time
      match prepare_dag_dependency rest execution_time with
      | none => none
      | some (ts, ids) =>
        some ({ task_id := _task_id, trigger_dag_id := dictGet d _task_id,
                trigger_run_id := _run_id, wait_for_completion := true,
                reset_dag_run := true, execution_date := execution_time,
                allowed_states := ["success", "failed"] } :: ts,
              _run_id :: ids)

/-- `load_file_task_info` from the DAG body. -/
def load_file_task_info : List (List (String × String)) :=
  [ [("example_google_bigquery_gcs_load_and_save", "example_google_bigquery_gcs_load_and_save")],
    [("example_amazon_s3_postgres_load_and_save", "example_amazon_s3_postgres_load_and_save")],
    [("example_amazon_s3_postgres", "example_amazon_s3_postgres")],
    [("example_load_file", "example_load_file")] ]

/-- `transform_task_info` from the DAG body. -/
def transform_task_info : List (List (String × String)) :=
  [ [("example_amazon_s3_snowflake_transform", "example_amazon_s3_snowflake_transform")],
    [("example_transform_mssql", "example_transform_mssql")] ]

/-- `dataframe_task_info` from the DAG body. -/
def dataframe_task_info : List (List (String × String)) :=
  [ [("example_dataframe", "example_dataframe")] ]

/-- `append_task_info` from the DAG body. -/
def append_task_info : List (List (String × String)) :=
  [ [("example_append", "example_append")],
    [("example_snowflake_partial_table_with_append", "example_snowflake_partial_table_with_append")] ]

/-- The initial value of `merge_trigger_tasks` (the fifth group of the
DAG body, used as the task info of its builder call). -/
def merge_trigger_task_info : List (List (String × String)) :=
  [ [("example_merge_bigquery", "example_merge_bigquery")] ]

/-- `dynamic_task_info` from the DAG body. -/
def dynamic_task_info : List (List (String × String)) :=
  [ [("example_dynamic_map_task", "example_dynamic_map_task")],
    [("example_dynamic_task_template", "example_dynamic_task_template")] ]

/-- `data_validation_dags_info` from the DAG body. -/
def data_validation_dags_info : List (List (String × String)) :=
  [ [("data_validation_check_column", "data_validation_check_column")] ]

/-- `dataset_dags_info` from the DAG body. -/
def dataset_dags_info : List (List (String × String)) :=
  [ [("example_dataset_producer", "example_dataset_producer")] ]

/-- `cleanup_snowflake_task_info` from the DAG body. -/
def cleanup_snowflake_task_info : List (List (String × String)) :=
  [ [("example_snowflake_cleanup", "example_snowflake_cleanup")] ]

/-- The logical groups of triggered workflows, in the order the DAG
body invokes the builder on them. -/
def master_group_task_infos : List (List (List (String × String))) :=
  [ load_file_task_info, transform_task_info, dataframe_task_info, append_task_info,
    merge_trigger_task_info, dynamic_task_info, data_validation_dags_info,
    dataset_dags_info, cleanup_snowflake_task_info ]

/-- The execution time template passed to every builder call in the
DAG body (the literal Jinja string of the source). -/
def ds_template : String := "\x7b\x7b ds \x7d\x7d"

/-- The `dag_run_ids` list the DAG body accumulates and hands to the
`get_report` task: `dag_run_ids.extend(ids)` after each of the nine
builder invocations, in group order. -/
def master_dag_run_ids : Option (List String) := do
  let r1 ← prepare_dag_dependency load_file_task_info ds_template
  let r2 ← prepare_dag_dependency transform_task_info ds_template
  let r3 ← prepare_dag_dependency dataframe_task_info ds_template
  let r4 ← prepare_dag_dependency append_task_info ds_template
  let r5 ← prepare_dag_dependency merge_trigger_task_info ds_template
  let r6 ← prepare_dag_dependency dynamic_task_info ds_template
  let r7 ← prepare_dag_dependency data_validation_dags_info ds_template
  let r8 ← prepare_dag_dependency dataset_dags_info ds_template
  let r9 ← prepare_dag_dependency cleanup_snowflake_task_info ds_template
  pure (r1.2 ++ r2.2 ++ r3.2 ++ r4.2 ++ r5.2 ++ r6.2 ++ r7.2 ++ r8.2 ++ r9.2)

/-! Helper lemmas shared by the claim theorems. -/

/-- A task produces no failure line exactly when it is one of the
excluded names or its state is "success". -/
theorem taskLine_eq_none_iff (ti : TaskInstance) :
    taskLine ti = none ↔
      (ti.task_id = "end" ∨ ti.task_id = "get_report") ∨ ti.state = "success" := by
  unfold taskLine
  by_cases h1 : ti.task_id = "end" ∨ ti.task_id = "get_report"
  · simp [h1]
  · by_cases h2 : ti.state = "success" <;> simp [h1, h2]

/-- The first accumulator component (`dag_count`) grows by exactly the
number of runs folded over, whatever their contents. -/
theorem foldl_reportStep_fst (runs : List DagRun) (acc : Nat × Nat × List String) :
    (runs.foldl reportStep acc).1 = acc.1 + runs.length := by
  induction runs generalizing acc with
  | nil => simp
  | cons dr rest ih =>
    rw [List.foldl_cons, ih]
    have hstep : (reportStep acc dr).1 = acc.1 + 1 := by
      unfold reportStep
      by_cases h : (dr.task_instances.filterMap taskLine).isEmpty <;> simp [h]
    rw [hstep, List.length_cons]
    omega

/-- Claim C2: for every input list of N TriggerSpecs (each a singleton
mapping from task id to target id) and every timestamp string T, the
trigger-set builder returns exactly N trigger tasks and exactly N run
identifiers, the i-th run identifier being
`task_id_i ++ "_" ++ target_id_i ++ "_" ++ T`, both output sequences
preserving the input order. -/
theorem claim_C2 (specs : List (String × String)) (T : String) :
    prepare_dag_dependency (specs.map (fun p => [p])) T =
      some (specs.map (fun p =>
              { task_id := p.1, trigger_dag_id := some p.2,
                trigger_run_id := p.1 ++ "_" ++ p.2 ++ "_" ++ T,
                wait_for_completion := true, reset_dag_run := true,
                execution_date := T, allowed_states := ["success", "failed"] }),
            specs.map (fun p => p.1 ++ "_" ++ p.2 ++ "_" ++ T)) ∧
    (prepare_dag_dependency (specs.map (fun p => [p])) T).map
        (fun r => (r.1.length, r.2.length)) = some (specs.length, specs.length) := by
  have hmain : prepare_dag_dependency (specs.map (fun p => [p])) T =
      some (specs.map (fun p =>
              { task_id := p.1, trigger_dag_id := some p.2,
                trigger_run_id := p.1 ++ "_" ++ p.2 ++ "_" ++ T,
                wait_for_completion := true, reset_dag_run := true,
                execution_date := T, allowed_states := ["success", "failed"] }),
            specs.map (fun p => p.1 ++ "_" ++ p.2 ++ "_" ++ T)) := by
    induction specs with
    | nil => rfl
    | cons p rest ih =>
      simp only [List.map_cons, prepare_dag_dependency, ih]
      simp [dictGet, pyStr]
  refine ⟨hmain, ?_⟩
  rw [hmain]
  simp

/-- Claim C10: `prepare_dag_dependency` reads only the first key of
each mapping as the task identifier (extra keys are ignored), succeeds
on every list of nonempty mappings, and fails (the `IndexError` of
`list(d.keys())[0]`, modelled by `none`) on any input containing an
empty mapping. -/
theorem claim_C10 (T : String) :
    (∀ (k v : String) (extra : List (String × String))
        (rest : List (List (String × String))),
      prepare_dag_dependency (((k, v) :: extra) :: rest) T =
        prepare_dag_dependency ([(k, v)] :: rest) T) ∧
    (∀ info : List (List (String × String)), (∀ d ∈ info, d ≠ []) →
      (prepare_dag_dependency info T).isSome = true) ∧
    (∀ pre post : List (List (String × String)),
      prepare_dag_dependency (pre ++ [[]] ++ post) T = none) := by
  refine ⟨?_, ?_, ?_⟩
  · intro k v extra rest
    have hfind : ∀ l : List (String × String),
        List.find? (fun p => p.1 = k) ((k, v) :: l) = some (k, v) :=
      fun l => List.find?_cons_of_pos _ (by simp)
    simp only [prepare_dag_dependency, List.map_cons, dictGet, hfind]
  · intro info hall
    induction info with
    | nil => rfl
    | cons d rest ih =>
      have hd : d ≠ [] := hall d (List.mem_cons_self d rest)
      obtain ⟨p, d', rfl⟩ := List.exists_cons_of_ne_nil hd
      have hrest := ih (fun x hx => hall x (List.mem_cons_of_mem _ hx))
      obtain ⟨r, hr⟩ := Option.isSome_iff_exists.mp hrest
      simp [prepare_dag_dependency, hr]
  · intro pre post
    induction pre with
    | nil => rfl
    | cons d pre' ih =>
      cases d with
      | nil => rfl
      | cons p d' =>
        have ih' : prepare_dag_dependency (pre' ++ [] :: post) T = none := by
          simpa using ih
        simp [prepare_dag_dependency, ih']

/-- Witness for claim C10 at concrete inputs: a second key in a
mapping is ignored, a list of nonempty mappings succeeds, and a list
containing an empty mapping fails. -/
theorem claim_C10_witness :
    prepare_dag_dependency [[("a", "b"), ("c", "d")]] "T" =
      prepare_dag_dependency [[("a", "b")]] "T" ∧
    (prepare_dag_dependency [[("a", "b")]] "T").isSome = true ∧
    prepare_dag_dependency [[("x", "y")], [], [("a", "b")]] "T" = none := by
  refine ⟨(claim_C10 "T").1 "a" "b" [("c", "d")] [],
    (claim_C10 "T").2.1 [[("a", "b")]] (by decide), ?_⟩
  exact (claim_C10 "T").2.2 [[("x", "y")]] [[("a", "b")]]

/-- Counterexample to claim C3 as stated: the example master DAG
invokes the builder once per logical group of triggered workflows, but
there are 9 such groups, not 8. -/
theorem claim_C3_counterexample : ¬ (master_group_task_infos.length = 8) := by
  decide

/-- Claim C3 (amended): the run-identifier list handed to the
aggregator is exactly the concatenation, in group order, of the run
identifiers produced by every builder invocation, and the builder is
invoked once per logical group of triggered workflows, of which there
are 9 groups in the example master DAG. -/
theorem claim_C3 :
    master_group_task_infos.length = 9 ∧
    master_dag_run_ids =
      (master_group_task_infos.mapM
        (fun g => (prepare_dag_dependency g ds_template).map Prod.snd)).map
        List.flatten ∧
    master_dag_run_ids = some
      [ "example_google_bigquery_gcs_load_and_save_example_google_bigquery_gcs_load_and_save_\x7b\x7b ds \x7d\x7d",
        "example_amazon_s3_postgres_load_and_save_example_amazon_s3_postgres_load_and_save_\x7b\x7b ds \x7d\x7d",
        "example_amazon_s3_postgres_example_amazon_s3_postgres_\x7b\x7b ds \x7d\x7d",
        "example_load_file_example_load_file_\x7b\x7b ds \x7d\x7d",
        "example_amazon_s3_snowflake_transform_example_amazon_s3_snowflake_transform_\x7b\x7b ds \x7d\x7d",
        "example_transform_mssql_example_transform_mssql_\x7b\x7b ds \x7d\x7d",
        "example_dataframe_example_dataframe_\x7b\x7b ds \x7d\x7d",
        "example_append_example_append_\x7b\x7b ds \x7d\x7d",
        "example_snowflake_partial_table_with_append_example_snowflake_partial_table_with_append_\x7b\x7b ds \x7d\x7d",
        "example_merge_bigquery_example_merge_bigquery_\x7b\x7b ds \x7d\x7d",
        "example_dynamic_map_task_example_dynamic_map_task_\x7b\x7b ds \x7d\x7d",
        "example_dynamic_task_template_example_dynamic_task_template_\x7b\x7b ds \x7d\x7d",
        "data_validation_check_column_data_validation_check_column_\x7b\x7b ds \x7d\x7d",
        "example_dataset_producer_example_dataset_producer_\x7b\x7b ds \x7d\x7d",
        "example_snowflake_cleanup_example_snowflake_cleanup_\x7b\x7b ds \x7d\x7d" ] := by
  refine ⟨rfl, rfl, rfl⟩

/-- A run has an empty `failed_tasks` list exactly when it has no
non-excluded child outcome with a non-success state. -/
theorem filterMap_taskLine_eq_nil_iff (dr : DagRun) :
    dr.task_instances.filterMap taskLine = [] ↔
      ¬∃ ti ∈ dr.task_instances,
        ¬(ti.task_id = "end" ∨ ti.task_id = "get_report") ∧ ti.state ≠ "success" := by
  rw [List.filterMap_eq_nil_iff]
  constructor
  · rintro hall ⟨ti, hmem, hne, hns⟩
    rcases (taskLine_eq_none_iff ti).mp (hall ti hmem) with h | h
    · exact hne h
    · exact hns h
  · intro hnex ti hmem
    rw [taskLine_eq_none_iff]
    by_contra hc
    push_neg at hc
    exact hnex ⟨ti, hmem, not_or.mpr hc.1, hc.2⟩

/-- Claim C1: for every loaded run and every child task outcome whose
task name is not exactly "end" or "get_report", a "success" outcome
produces no line and every other outcome produces a marker-prefixed
line (a distinct marker per classification: red circle for "failed",
large orange circle for "upstream_failed", black circle otherwise)
naming the task and its status; and the record counts toward
`failed_dag_count` with its header line plus all of its failing-task
lines appended to the message body, if and only if it has at least one
such non-success child outcome. -/
theorem claim_C1 (dr : DagRun) (acc : Nat × Nat × List String) :
    (∀ ti : TaskInstance, ti.task_id ≠ "end" → ti.task_id ≠ "get_report" →
      (ti.state = "success" → taskLine ti = none) ∧
      (ti.state = "failed" →
        taskLine ti = some (":red_circle:  " ++ ti.task_id ++ " : " ++ ti.state ++ " \n")) ∧
      (ti.state = "upstream_failed" →
        taskLine ti = some (":large_orange_circle:  " ++ ti.task_id ++ " : " ++ ti.state ++ " \n")) ∧
      (ti.state ≠ "success" → ti.state ≠ "failed" → ti.state ≠ "upstream_failed" →
        taskLine ti = some (":black_circle:  " ++ ti.task_id ++ " : " ++ ti.state ++ " \n"))) ∧
    ((":red_circle: " : String) ≠ ":large_orange_circle: " ∧
      (":red_circle: " : String) ≠ ":black_circle: " ∧
      (":large_orange_circle: " : String) ≠ ":black_circle: ") ∧
    (((reportStep acc dr).2.1 = acc.2.1 + 1 ∧
      (reportStep acc dr).2.2 =
        acc.2.2 ++ [" *" ++ dr.dag_id ++ " : " ++ dr.state ++ "* \n"]
          ++ dr.task_instances.filterMap taskLine) ↔
      ∃ ti ∈ dr.task_instances,
        ¬(ti.task_id = "end" ∨ ti.task_id = "get_report") ∧ ti.state ≠ "success") ∧
    (((reportStep acc dr).2.1 = acc.2.1 ∧ (reportStep acc dr).2.2 = acc.2.2) ↔
      ¬∃ ti ∈ dr.task_instances,
        ¬(ti.task_id = "end" ∨ ti.task_id = "get_report") ∧ ti.state ≠ "success") := by
  refine ⟨?_, by refine ⟨by decide, by decide, by decide⟩, ?_, ?_⟩
  · intro ti h1 h2
    have hcond : ¬(ti.task_id = "end" ∨ ti.task_id = "get_report") := by
      rintro (h | h)
      · exact h1 h
      · exact h2 h
    refine ⟨?_, ?_, ?_, ?_⟩
    · intro hs
      unfold taskLine
      rw [if_pos hcond, if_pos hs]
    · intro hs
      unfold taskLine
      rw [if_pos hcond, if_neg (by rw [hs]; decide), hs]
      exact rfl
    · intro hs
      unfold taskLine
      rw [if_pos hcond, if_neg (by rw [hs]; decide), hs]
      exact rfl
    · intro hs hf hu
      unfold taskLine
      rw [if_pos hcond, if_neg hs]
      show some ((if ti.state = "failed" then ":red_circle: "
          else if ti.state = "upstream_failed" then ":large_orange_circle: "
          else ":black_circle: ") ++ " " ++ ti.task_id ++ " : " ++ ti.state ++ " \n") = _
      rw [if_neg hf, if_neg hu]
      exact rfl
  · by_cases hemp : dr.task_instances.filterMap taskLine = []
    · have hstep : reportStep acc dr = (acc.1 + 1, acc.2.1, acc.2.2) := by
        unfold reportStep
        rw [hemp]
        rfl
      constructor
      · rintro ⟨h1, _⟩
        rw [hstep] at h1
        have h1' : acc.2.1 = acc.2.1 + 1 := h1
        omega
      · intro hex
        exact absurd hex ((filterMap_taskLine_eq_nil_iff dr).mp hemp)
    · have hstep : reportStep acc dr =
          (acc.1 + 1, acc.2.1 + 1,
            acc.2.2 ++ [" *" ++ dr.dag_id ++ " : " ++ dr.state ++ "* \n"]
              ++ dr.task_instances.filterMap taskLine) := by
        unfold reportStep
        rcases hlist : dr.task_instances.filterMap taskLine with _ | ⟨a, l⟩
        · exact absurd hlist hemp
        · rfl
      constructor
      · intro _
        by_contra hn
        exact hemp ((filterMap_taskLine_eq_nil_iff dr).mpr hn)
      · intro _
        rw [hstep]
        exact ⟨rfl, rfl⟩
  · by_cases hemp : dr.task_instances.filterMap taskLine = []
    · have hstep : reportStep acc dr = (acc.1 + 1, acc.2.1, acc.2.2) := by
        unfold reportStep
        rw [hemp]
        rfl
      constructor
      · intro _
        exact (filterMap_taskLine_eq_nil_iff dr).mp hemp
      · intro _
        rw [hstep]
        exact ⟨rfl, rfl⟩
    · have hstep : reportStep acc dr =
          (acc.1 + 1, acc.2.1 + 1,
            acc.2.2 ++ [" *" ++ dr.dag_id ++ " : " ++ dr.state ++ "* \n"]
              ++ dr.task_instances.filterMap taskLine) := by
        unfold reportStep
        rcases hlist : dr.task_instances.filterMap taskLine with _ | ⟨a, l⟩
        · exact absurd hlist hemp
        · rfl
      constructor
      · rintro ⟨h1, _⟩
        rw [hstep] at h1
        have h1' : acc.2.1 + 1 = acc.2.1 := h1
        omega
      · intro hn
        exact absurd ((filterMap_taskLine_eq_nil_iff dr).mpr hn) hemp

/-- Witness for claim C1 at a concrete run: a "failed" child produces
the red-circle line, and a run with one such child is counted and its
lines appended. -/
theorem claim_C1_witness :
    taskLine (⟨"t1", "failed"⟩ : TaskInstance) = some ":red_circle:  t1 : failed \n" ∧
    ((reportStep (0, 0, []) (⟨"d", "r", "failed", [⟨"t1", "failed"⟩]⟩ : DagRun)).2.1 = 0 + 1 ∧
      (reportStep (0, 0, []) (⟨"d", "r", "failed", [⟨"t1", "failed"⟩]⟩ : DagRun)).2.2 =
        ([] : List String) ++ [" *d : failed* \n"]
          ++ ([⟨"t1", "failed"⟩] : List TaskInstance).filterMap taskLine) := by
  constructor
  · exact (((claim_C1 ⟨"d", "r", "failed", [⟨"t1", "failed"⟩]⟩ (0, 0, [])).1
      ⟨"t1", "failed"⟩ (by decide) (by decide)).2.1 rfl)
  · exact (claim_C1 ⟨"d", "r", "failed", [⟨"t1", "failed"⟩]⟩ (0, 0, [])).2.2.1.mpr
      ⟨⟨"t1", "failed"⟩, by simp, by decide, by decide⟩

/-- Claim C9: whether a loaded run counts toward `failed_dag_count`
depends only on its non-excluded child task outcomes, never on the run
state itself: a run whose own state is "failed" but whose children
(other than "end" and "get_report") are all "success" is counted in
`dag_count`, not in `failed_dag_count`, and adds no failure lines; and
in general the two counters of the loop step never depend on the run
state. -/
theorem claim_C9 (dr : DagRun) (acc : Nat × Nat × List String)
    (_hstate : dr.state = "failed")
    (hall : ∀ ti ∈ dr.task_instances,
      ti.task_id ≠ "end" → ti.task_id ≠ "get_report" → ti.state = "success") :
    reportStep acc dr = (acc.1 + 1, acc.2.1, acc.2.2) ∧
    (∀ (dr' : DagRun) (s : String),
      (reportStep acc { dr' with state := s }).1 = (reportStep acc dr').1 ∧
      (reportStep acc { dr' with state := s }).2.1 = (reportStep acc dr').2.1) := by
  constructor
  · have hemp : dr.task_instances.filterMap taskLine = [] := by
      rw [List.filterMap_eq_nil_iff]
      intro ti hmem
      rw [taskLine_eq_none_iff]
      by_cases he : ti.task_id = "end" ∨ ti.task_id = "get_report"
      · exact Or.inl he
      · push_neg at he
        exact Or.inr (hall ti hmem he.1 he.2)
    unfold reportStep
    rw [hemp]
    rfl
  · intro dr' s
    unfold reportStep
    by_cases h : (dr'.task_instances.filterMap taskLine).isEmpty <;> simp [h]

/-- Witness for claim C9: a run in state "failed" whose only children
are a successful task and the excluded "end" task is counted but not
treated as failed. -/
theorem claim_C9_witness :
    reportStep (0, 0, [])
        (⟨"d", "r", "failed", [⟨"a", "success"⟩, ⟨"end", "failed"⟩]⟩ : DagRun) =
      (0 + 1, 0, []) := by
  exact (claim_C9 ⟨"d", "r", "failed", [⟨"a", "success"⟩, ⟨"end", "failed"⟩]⟩ (0, 0, [])
    rfl (by decide)).1

/-- Counterexample to claim C4 as stated: with every upstream fact
unresolved, the Airflow-version line renders the Python `None` as the
string "None", not as the sentinel "N/A"; no line of the header block
renders that fact as "N/A". -/
theorem claim_C4_counterexample :
    (report_details [] ⟨none, none, none, none⟩)[2]? =
      some "*Airflow version:* `None`\n" ∧
    ¬ ((report_details [] ⟨none, none, none, none⟩).contains
        "*Airflow version:* `N/A`\n" = true) := by
  decide

/-- Claim C4 (amended): the header block lists the six context facts
as Slack-formatted "<Name>: <value>" lines in the fixed declared order
(runtime version, python version, airflow version, executor, sdk
version, cloud provider); the two environment-derived facts default to
the sentinel "N/A" when unset, while the four facts pulled from
upstream tasks render as "None" when they could not be resolved. -/
theorem claim_C4 (env : Env) (xc : Xcoms) :
    (report_details env xc).length = 6 ∧
    (envLookup env "ASTRONOMER_RUNTIME_VERSION" = none →
      (report_details env xc)[0]? = some "*Runtime version:* `N/A`\n") ∧
    (envLookup env "PYTHON_VERSION" = none →
      (report_details env xc)[1]? = some "*Python version:* `N/A`\n") ∧
    (∀ v, xc.airflow_version = some v →
      (report_details env xc)[2]? = some ("*Airflow version:* `" ++ v ++ "`\n")) ∧
    (xc.airflow_version = none →
      (report_details env xc)[2]? = some "*Airflow version:* `None`\n") ∧
    (xc.airflow_executor = none →
      (report_details env xc)[3]? = some "*Executor:* `None`\n") ∧
    (xc.astro_sdk_version = none →
      (report_details env xc)[4]? = some "*Astro-SDK version:* `None`\n") ∧
    (xc.astro_cloud_provider = none →
      (report_details env xc)[5]? = some "*Cloud provider:* `None`\n") := by
  refine ⟨rfl, ?_, ?_, ?_, ?_, ?_, ?_, ?_⟩
  · intro h
    simp [report_details, getenv, h]
  · intro h
    simp [report_details, getenv, h]
  · intro v h
    simp [report_details, pyStr, h]
  · intro h
    simp [report_details, pyStr, h]
  · intro h
    simp [report_details, pyStr, h]
  · intro h
    simp [report_details, pyStr, h]
  · intro h
    simp [report_details, pyStr, h]

/-- Witness for claim C4 at a concrete input with everything
unresolved: six lines, the runtime line defaults to "N/A" and the
airflow-version line renders "None". -/
theorem claim_C4_witness :
    (report_details [] ⟨none, none, none, none⟩).length = 6 ∧
    (report_details [] ⟨none, none, none, none⟩)[0]? =
      some "*Runtime version:* `N/A`\n" ∧
    (report_details [] ⟨none, none, none, none⟩)[2]? =
      some "*Airflow version:* `None`\n" :=
  ⟨(claim_C4 [] ⟨none, none, none, none⟩).1,
   (claim_C4 [] ⟨none, none, none, none⟩).2.1 rfl,
   (claim_C4 [] ⟨none, none, none, none⟩).2.2.2.2.1 rfl⟩

/-- Counterexample to claim C5 as stated: with the dispatch succeeding
(`slack_fails = false`) but `AIRFLOW__WEBSERVER__BASE_URL` unset,
`get_report` still raises (the `KeyError` of `os.environ`), so a
failing dispatch is not the only input condition under which it
raises. -/
theorem claim_C5_counterexample :
    (get_report ["r1"] [] [] ⟨none, none, none, none⟩ [] false).result =
      Except.error (.keyError "AIRFLOW__WEBSERVER__BASE_URL") := by
  rfl

/-- Claim C5 (amended): a failure of the Slack dispatch is logged and
then re-raised by the aggregator, and apart from the `KeyError` raised
when `AIRFLOW__WEBSERVER__BASE_URL` is unset this is the only input
condition under which `get_report` raises: for any loaded runs and
master task outcomes, with the base URL set and the dispatch
succeeding the call returns normally, so triggered-run failures and
missing run records are reported only in the message text. -/
theorem claim_C5 (ids : List String) (db : List DagRun) (env : Env) (xc : Xcoms)
    (tis : List TaskInstance) (b : String)
    (h : envLookup env "AIRFLOW__WEBSERVER__BASE_URL" = some b) :
    ((get_report ids db env xc tis true).result = .error .slackError ∧
      "Error occur while sending slack alert." ∈ (get_report ids db env xc tis true).logs ∧
      (get_report ids db env xc tis true).dispatched = []) ∧
    (get_report ids db env xc tis false).result = .ok () := by
  unfold get_report
  rw [h]
  refine ⟨⟨rfl, ?_, rfl⟩, rfl⟩
  simp

/-- Witness for claim C5 at a concrete environment with the base URL
set: a failing dispatch is logged, re-raised and delivers nothing,
while a succeeding dispatch returns normally. -/
theorem claim_C5_witness :
    ((get_report [] [] [("AIRFLOW__WEBSERVER__BASE_URL", "http://w")]
        ⟨none, none, none, none⟩ [] true).result = .error .slackError ∧
      "Error occur while sending slack alert." ∈
        (get_report [] [] [("AIRFLOW__WEBSERVER__BASE_URL", "http://w")]
          ⟨none, none, none, none⟩ [] true).logs ∧
      (get_report [] [] [("AIRFLOW__WEBSERVER__BASE_URL", "http://w")]
        ⟨none, none, none, none⟩ [] true).dispatched = []) ∧
    (get_report [] [] [("AIRFLOW__WEBSERVER__BASE_URL", "http://w")]
      ⟨none, none, none, none⟩ [] false).result = .ok () :=
  claim_C5 [] [] [("AIRFLOW__WEBSERVER__BASE_URL", "http://w")]
    ⟨none, none, none, none⟩ [] "http://w" rfl

/-- Claim C6: run identifiers with no corresponding loadable run
record are silently excluded: `dag_count` counts exactly the records
actually loaded, and with the base URL set and the dispatch succeeding
the aggregator returns normally whatever records are missing. -/
theorem claim_C6 (ids : List String) (db : List DagRun) (env : Env) (xc : Xcoms)
    (tis : List TaskInstance) (b : String)
    (h : envLookup env "AIRFLOW__WEBSERVER__BASE_URL" = some b) :
    (reportLoop (loadRuns ids db)).1 = (loadRuns ids db).length ∧
    (get_report ids db env xc tis false).result = .ok () := by
  constructor
  · rw [reportLoop, foldl_reportStep_fst]
    exact Nat.zero_add _
  · unfold get_report
    rw [h]
    rfl

/-- Witness for claim C6: requesting run ids r1 and r2 when only r1 is
in the database loads one record, yields `dag_count = 1` and does not
raise. -/
theorem claim_C6_witness :
    (reportLoop (loadRuns ["r1", "r2"] [⟨"d1", "r1", "success", []⟩])).1 =
      (loadRuns ["r1", "r2"] [⟨"d1", "r1", "success", []⟩]).length ∧
    (reportLoop (loadRuns ["r1", "r2"] [⟨"d1", "r1", "success", []⟩])).1 = 1 ∧
    (get_report ["r1", "r2"] [⟨"d1", "r1", "success", []⟩]
      [("AIRFLOW__WEBSERVER__BASE_URL", "http://w")]
      ⟨none, none, none, none⟩ [] false).result = .ok () := by
  have h := claim_C6 ["r1", "r2"] [⟨"d1", "r1", "success", []⟩]
    [("AIRFLOW__WEBSERVER__BASE_URL", "http://w")] ⟨none, none, none, none⟩ [] "http://w" rfl
  exact ⟨h.1, rfl, h.2⟩

/-- Claim C7: `build_report` is deterministic in its inputs: whenever
two databases load to the same set of run records, `get_report`
produces identical outcomes (in particular byte-identical report
strings) for identical remaining inputs. -/
theorem claim_C7 (ids : List String) (db1 db2 : List DagRun) (env : Env) (xc : Xcoms)
    (tis : List TaskInstance) (flag : Bool)
    (h : loadRuns ids db1 = loadRuns ids db2) :
    get_report ids db1 env xc tis flag = get_report ids db2 env xc tis flag := by
  unfold get_report
  rw [h]

/-- Witness for claim C7: two databases differing only in a record
whose run id was not requested load identically and give identical
outcomes. -/
theorem claim_C7_witness :
    get_report ["r1"] [⟨"d1", "r1", "success", []⟩]
      [("AIRFLOW__WEBSERVER__BASE_URL", "http://w")] ⟨none, none, none, none⟩ [] false =
    get_report ["r1"] [⟨"d1", "r1", "success", []⟩, ⟨"d2", "r2", "failed", []⟩]
      [("AIRFLOW__WEBSERVER__BASE_URL", "http://w")] ⟨none, none, none, none⟩ [] false :=
  claim_C7 ["r1"] [⟨"d1", "r1", "success", []⟩]
    [⟨"d1", "r1", "success", []⟩, ⟨"d2", "r2", "failed", []⟩]
    [("AIRFLOW__WEBSERVER__BASE_URL", "http://w")] ⟨none, none, none, none⟩ [] false rfl

/-- Claim C8: when `AIRFLOW__WEBSERVER__BASE_URL` is unset,
`get_report` raises `KeyError` with no log emitted and nothing
dispatched, whatever the run records and dispatch behaviour (so before
iterating over any run record and before any notification); and with
that single variable set, the call returns normally even though every
other configuration value it reads is absent and falls back to its
fixed default. -/
theorem claim_C8 (ids : List String) (db : List DagRun) (env : Env) (xc : Xcoms)
    (tis : List TaskInstance) (flag : Bool) (b : String)
    (h : envLookup env "AIRFLOW__WEBSERVER__BASE_URL" = none) :
    get_report ids db env xc tis flag =
      { logs := [], result := .error (.keyError "AIRFLOW__WEBSERVER__BASE_URL"),
        dispatched := [] } ∧
    (get_report ids db [("AIRFLOW__WEBSERVER__BASE_URL", b)] xc tis false).result =
      .ok () := by
  constructor
  · unfold get_report
    rw [h]
  · unfold get_report
    have hb : envLookup [("AIRFLOW__WEBSERVER__BASE_URL", b)]
        "AIRFLOW__WEBSERVER__BASE_URL" = some b := by
      simp [envLookup]
    rw [hb]
    rfl

/-- Witness for claim C8 at a concrete input: an environment carrying
only an unrelated variable makes `get_report` raise `KeyError` with
empty logs and no dispatch, and the base URL alone suffices for a
normal return. -/
theorem claim_C8_witness :
    get_report ["r1"] [⟨"d1", "r1", "failed", []⟩] [("PYTHON_VERSION", "3.10")]
        ⟨none, none, none, none⟩ [] true =
      { logs := [], result := .error (.keyError "AIRFLOW__WEBSERVER__BASE_URL"),
        dispatched := [] } ∧
    (get_report ["r1"] [⟨"d1", "r1", "failed", []⟩]
      [("AIRFLOW__WEBSERVER__BASE_URL", "http://w")]
      ⟨none, none, none, none⟩ [] false).result = .ok () :=
  claim_C8 ["r1"] [⟨"d1", "r1", "failed", []⟩] [("PYTHON_VERSION", "3.10")]
    ⟨none, none, none, none⟩ [] true "http://w" rfl

end MasterDag
